import Mathlib

/-!
# Verification of the batch sentiment job lifecycle

Shallow embedding of `backend/app/routers/sentiment.py`: the batch job
submission endpoint (`analyze_sentiment_batch`), the background executor
(`process_batch_sentiment`), the per-item classifier wrapper
(`predict_sentiment`) and the status endpoint (`get_task_status`),
together with the `background_tasks` table rows they manipulate
(`backend/app/db/models.py`, class `BackgroundTask`).

Modelling decisions, each reflecting the source:
* The classifier (`model.predict` / `model.predict_proba` followed by
  `max`) is abstracted as `classify : String → Option (Int × ℚ)`:
  `some (label, confidence)` when the sklearn calls return normally
  (confidence being the maximal predicted probability), `none` when they
  raise.  `predict_sentiment` wraps it exactly as the Python code does.
* A `background_tasks` row is `BackgroundTask`; the store is the list of
  rows, and `.first()` on a filtered query is `List.filter` + `head?`.
  `result` is stored as the decoded list of outcomes (the code stores
  `json.dumps(results)` and the status endpoint applies `json.loads`,
  an order- and value-preserving round trip).
* Inside the executor's `try` block `predict_sentiment` never raises
  (it has a bare `except` returning a default), so the only exception
  source is storage I/O (`db.query` / `db.commit`).  The parameter
  `exc : Option String` models this: `none` means the `try` block runs
  to completion, `some e` means a storage exception with message `e` is
  raised before the completed-state write takes effect, sending control
  to the `except` branch.
* Timestamps (`created_at` / `updated_at`) are irrelevant to every claim
  considered and are omitted from the row model.
-/

/-- A per-item outcome, one entry of the `results` list built by
`process_batch_sentiment` (keys `text`, `sentiment`, `confidence`). -/
structure Outcome where
  text : String
  sentiment : String
  confidence : ℚ
deriving DecidableEq, Repr

/-- A row of the `background_tasks` table (class `BackgroundTask` in
`backend/app/db/models.py`), restricted to the fields the router reads
or writes. -/
structure BackgroundTask where
  task_id : String
  user_id : Nat
  task_type : String
  status : String
  result : Option (List Outcome)
  error_message : Option String
deriving DecidableEq, Repr

/-- The `background_tasks` table: the list of its rows. -/
abbrev Store := List BackgroundTask

/-- `sentiment_map.get(prediction, "neutral")` with
`sentiment_map = {0: "negative", 1: "positive"}`. -/
def sentiment_map (prediction : Int) : String :=
  if prediction = 0 then "negative"
  else if prediction = 1 then "positive"
  else "neutral"

/-- `predict_sentiment` (sentiment.py lines 42-55): run the classifier;
on success map the label through `sentiment_map` and keep the reported
confidence; on any exception return the default `("neutral", 0.5)`. -/
def predict_sentiment (classify : String → Option (Int × ℚ)) (text : String) :
    String × ℚ :=
  match classify text with
  | some pc => (sentiment_map pc.1, pc.2)
  | none => ("neutral", 1/2)

/-- The `results` list accumulated by the executor's `for text in texts`
loop: one outcome per input text, in input order. -/
def batch_results (classify : String → Option (Int × ℚ))
    (texts : List String) : List Outcome :=
  texts.map (fun t => ⟨t, (predict_sentiment classify t).1,
                         (predict_sentiment classify t).2⟩)

/-- `db.query(BackgroundTask).filter(task_id == tid).first()`. -/
def find_task (tid : String) (store : Store) : Option BackgroundTask :=
  (store.filter (fun t => t.task_id == tid)).head?

/-- Mutate the first row matched by `p` (SQLAlchemy `.first()` followed
by attribute assignment and `commit`); no row matched means no write. -/
def update_first (p : BackgroundTask → Bool)
    (f : BackgroundTask → BackgroundTask) : Store → Store
  | [] => []
  | t :: ts => if p t then f t :: ts else t :: update_first p f ts

/-- The executor's success write: `task.status = "completed";
task.result = json.dumps(results)`. -/
def complete_task (results : List Outcome) (t : BackgroundTask) :
    BackgroundTask :=
  { t with status := "completed", result := some results }

/-- The executor's failure write: `task.status = "failed";
task.error_message = str(e)`. -/
def fail_task (e : String) (t : BackgroundTask) : BackgroundTask :=
  { t with status := "failed", error_message := some e }

/-- `process_batch_sentiment` (sentiment.py lines 58-84).  With no
storage exception (`exc = none`) it builds the results and writes
`completed` to the first matching row; with a storage exception
(`exc = some e`) the `except` branch writes `failed` with the message.
Either branch writes nothing when no row matches `task_id`. -/
def process_batch_sentiment (classify : String → Option (Int × ℚ))
    (texts : List String) (task_id : String) (exc : Option String)
    (store : Store) : Store :=
  match exc with
  | none =>
      update_first (fun t => t.task_id == task_id)
        (complete_task (batch_results classify texts)) store
  | some e =>
      update_first (fun t => t.task_id == task_id) (fail_task e) store

/-- The immediate JSON body returned by `POST /sentiment/analyze/batch`
(fields `task_id` and `status`; the fixed `message` string is omitted). -/
structure SubmitResponse where
  task_id : String
  status : String
deriving DecidableEq, Repr

/-- `analyze_sentiment_batch` (sentiment.py lines 143-170): generate a
row with status `pending`, add and commit it, schedule the background
task, and return `{task_id, status: "pending"}`.  There is no
validation of `texts`; `texts` itself flows only into the scheduled
background call.  The fresh `uuid4` is the `task_id` parameter. -/
def analyze_sentiment_batch (_texts : List String) (user_id : Nat)
    (task_id : String) (store : Store) : Store × SubmitResponse :=
  let db_task : BackgroundTask :=
    ⟨task_id, user_id, "batch_sentiment_analysis", "pending", none, none⟩
  (store ++ [db_task], ⟨task_id, "pending"⟩)

/-- The body of a successful `GET /sentiment/task/{task_id}` response. -/
structure TaskStatusResponse where
  task_id : String
  status : String
  result : Option (List Outcome)
  error_message : Option String
deriving DecidableEq, Repr

/-- A FastAPI `HTTPException`. -/
structure HttpError where
  status_code : Nat
  detail : String
deriving DecidableEq, Repr

/-- `get_task_status` (sentiment.py lines 173-199): look up the row by
`task_id` AND `user_id`; raise 404 `Task not found` when no row
matches; otherwise return the row's fields. -/
def get_task_status (task_id : String) (user_id : Nat) (store : Store) :
    Except HttpError TaskStatusResponse :=
  match (store.filter
      (fun t => t.task_id == task_id && t.user_id == user_id)).head? with
  | none => .error ⟨404, "Task not found"⟩
  | some task =>
      .ok ⟨task.task_id, task.status, task.result, task.error_message⟩

/-! ## Store lemmas -/

/-- A lookup misses exactly when no row carries the id. -/
lemma find_task_eq_none_iff (tid : String) (store : Store) :
    find_task tid store = none ↔ ∀ t ∈ store, (t.task_id == tid) = false := by
  simp [find_task, List.head?_eq_none_iff, List.filter_eq_nil_iff]

/-- Updating rows none of which match is a no-op. -/
lemma update_first_of_no_match (p : BackgroundTask → Bool)
    (f : BackgroundTask → BackgroundTask) (store : Store)
    (h : ∀ t ∈ store, p t = false) : update_first p f store = store := by
  induction store with
  | nil => rfl
  | cons t ts ih =>
      have ht := h t (List.mem_cons_self t ts)
      simp [update_first, ht, ih fun u hu => h u (List.mem_cons_of_mem t hu)]

/-- Looking up after an id-preserving update of the matching row yields
the updated row. -/
lemma find_task_update_first (tid : String)
    (f : BackgroundTask → BackgroundTask)
    (hf : ∀ t, (f t).task_id = t.task_id) (store : Store) :
    find_task tid (update_first (fun t => t.task_id == tid) f store)
      = (find_task tid store).map f := by
  induction store with
  | nil => rfl
  | cons t ts ih =>
      by_cases h : t.task_id == tid
      · simp [update_first, find_task, h, hf t, List.filter_cons]
      · simp only [update_first, h, if_false, Bool.false_eq_true]
        simpa [find_task, List.filter_cons, h] using ih

/-- Appending a row with a fresh id to a store that misses the id makes
the lookup find exactly that row. -/
lemma find_task_append_fresh (tid : String) (store : Store)
    (t : BackgroundTask) (hfresh : find_task tid store = none)
    (ht : t.task_id = tid) :
    find_task tid (store ++ [t]) = some t := by
  have hall := (find_task_eq_none_iff tid store).mp hfresh
  have : store.filter (fun u => u.task_id == tid) = [] :=
    List.filter_eq_nil_iff.mpr (by simpa using hall)
  simp [find_task, List.filter_append, this, List.filter_cons, ht]

/-- Both executor writes preserve the row's `task_id`. -/
lemma complete_task_task_id (results : List Outcome) (t : BackgroundTask) :
    (complete_task results t).task_id = t.task_id := rfl

/-- The failure write also preserves the row's `task_id`. -/
lemma fail_task_task_id (e : String) (t : BackgroundTask) :
    (fail_task e t).task_id = t.task_id := rfl

/-- Success path of the executor: the matching row is rewritten to
`completed` with the batch results. -/
lemma find_task_process_ok (classify : String → Option (Int × ℚ))
    (texts : List String) (tid : String) (store : Store) :
    find_task tid (process_batch_sentiment classify texts tid none store)
      = (find_task tid store).map
          (complete_task (batch_results classify texts)) := by
  simp only [process_batch_sentiment]
  exact find_task_update_first tid
    (complete_task (batch_results classify texts)) (fun _ => rfl) store

/-- Exception path of the executor: the matching row is rewritten to
`failed` with the exception's message. -/
lemma find_task_process_exc (classify : String → Option (Int × ℚ))
    (texts : List String) (tid : String) (e : String) (store : Store) :
    find_task tid (process_batch_sentiment classify texts tid (some e) store)
      = (find_task tid store).map (fail_task e) := by
  simp only [process_batch_sentiment]
  exact find_task_update_first tid (fail_task e) (fun _ => rfl) store

/-! ## Claims -/

/-- C9: running the batch executor for a task id with no matching record
in the store terminates without raising and leaves every record
unchanged — both the success branch and the failure branch guard their
writes with `if task:`.  (Termination is by construction: the embedding
is a total function.) -/
theorem C9_executor_frame (classify : String → Option (Int × ℚ))
    (texts : List String) (tid : String) (exc : Option String)
    (store : Store) (h : find_task tid store = none) :
    process_batch_sentiment classify texts tid exc store = store := by
  have hall := (find_task_eq_none_iff tid store).mp h
  cases exc with
  | none => exact update_first_of_no_match _ _ _ hall
  | some e => exact update_first_of_no_match _ _ _ hall

/-- Witness for C9 at a concrete store holding an unrelated task. -/
theorem C9_executor_frame_witness :
    process_batch_sentiment (fun _ => some (1, 9/10)) ["x"] "j1" none
        [⟨"j2", 1, "batch_sentiment_analysis", "pending", none, none⟩]
      = [⟨"j2", 1, "batch_sentiment_analysis", "pending", none, none⟩] :=
  C9_executor_frame (fun _ => some (1, 9/10)) ["x"] "j1" none
    [⟨"j2", 1, "batch_sentiment_analysis", "pending", none, none⟩] rfl

/-- C7: a status query for an id with no record at all, and a status
query for an id whose records all belong to a different caller, both
yield the very same signal: HTTP 404 `Task not found`.  The error value
is a constant, so the two cases are indistinguishable to the caller. -/
theorem C7_status_not_found_uniform (tid : String) (uid : Nat)
    (store : Store) (tid' : String) (uid' : Nat) (store' : Store)
    (h : ∀ t ∈ store, t.task_id ≠ tid)
    (h' : ∀ t ∈ store', t.task_id = tid' → t.user_id ≠ uid') :
    get_task_status tid uid store = .error ⟨404, "Task not found"⟩ ∧
    get_task_status tid' uid' store' = .error ⟨404, "Task not found"⟩ ∧
    get_task_status tid uid store = get_task_status tid' uid' store' := by
  have hfil : store.filter
      (fun t => t.task_id == tid && t.user_id == uid) = [] := by
    refine List.filter_eq_nil_iff.mpr fun t ht => ?_
    simp only [Bool.and_eq_true, beq_iff_eq, not_and]
    intro hid
    exact absurd hid (h t ht)
  have hfil' : store'.filter
      (fun t => t.task_id == tid' && t.user_id == uid') = [] := by
    refine List.filter_eq_nil_iff.mpr fun t ht => ?_
    simp only [Bool.and_eq_true, beq_iff_eq, not_and]
    exact h' t ht
  refine ⟨?_, ?_, ?_⟩ <;> simp [get_task_status, hfil, hfil']

/-- Witness for C7: empty store versus a store whose only `j1` row is
owned by user 2, both queried by user 1. -/
theorem C7_status_not_found_uniform_witness :
    get_task_status "j1" 1 [] = .error ⟨404, "Task not found"⟩ ∧
    get_task_status "j1" 1
        [⟨"j1", 2, "batch_sentiment_analysis", "pending", none, none⟩]
      = .error ⟨404, "Task not found"⟩ ∧
    get_task_status "j1" 1 []
      = get_task_status "j1" 1
          [⟨"j1", 2, "batch_sentiment_analysis", "pending", none, none⟩] :=
  C7_status_not_found_uniform "j1" 1 [] "j1" 1
    [⟨"j1", 2, "batch_sentiment_analysis", "pending", none, none⟩]
    (by simp) (by simp)

/-- C10, counterexample: when the classifier returns normally with a
label outside `{0, 1}` (here label `2` with confidence `9/10`),
`predict_sentiment` keeps the classifier's confidence — it returns
`("neutral", 9/10)`, not the claimed default outcome `("neutral", 0.5)`.
The default confidence is produced only on the exception path. -/
theorem C10_counterexample :
    predict_sentiment (fun _ => some (2, 9/10)) "some text"
        = ("neutral", 9/10) ∧
    predict_sentiment (fun _ => some (2, 9/10)) "some text"
        ≠ ("neutral", 1/2) := by
  refine ⟨rfl, ?_⟩
  simp only [predict_sentiment, sentiment_map, Prod.mk.injEq]
  norm_num

/-- C10, amended: when the classifier raises, `predict_sentiment`
returns the default outcome `("neutral", 0.5)` and propagates nothing;
when the classifier returns a label outside `{0, 1}`, it returns
`"neutral"` paired with the classifier's reported confidence (not the
default `0.5`). -/
theorem C10_default_on_exception (classify : String → Option (Int × ℚ))
    (text : String) :
    (classify text = none →
      predict_sentiment classify text = ("neutral", 1/2)) ∧
    (∀ p c, classify text = some (p, c) → p ≠ 0 → p ≠ 1 →
      predict_sentiment classify text = ("neutral", c)) := by
  constructor
  · intro h
    simp [predict_sentiment, h]
  · intro p c h hp hq
    simp [predict_sentiment, h, sentiment_map, hp, hq]

/-- Witness for C10 at a raising classifier and at a classifier
reporting the unmapped label `5`. -/
theorem C10_default_on_exception_witness :
    predict_sentiment (fun _ => none) "x" = ("neutral", 1/2) ∧
    predict_sentiment (fun _ => some (5, 3/4)) "x" = ("neutral", 3/4) :=
  ⟨(C10_default_on_exception (fun _ => none) "x").1 rfl,
   (C10_default_on_exception (fun _ => some (5, 3/4)) "x").2 5 (3/4) rfl
     (by decide) (by decide)⟩

/-- C1: when a submitted batch job reaches the `completed` state, its
stored result is the ordered list of per-item outcomes: one outcome per
input text, `result.length = texts.length`, and the `i`-th outcome's
`text` field is the `i`-th input text (order preservation). -/
theorem C1_result_matches_input (classify : String → Option (Int × ℚ))
    (texts : List String) (uid : Nat) (tid : String) (store : Store)
    (exc : Option String) (hfresh : find_task tid store = none) :
    ∀ task, find_task tid (process_batch_sentiment classify texts tid exc
        (analyze_sentiment_batch texts uid tid store).1) = some task →
      task.status = "completed" →
      ∃ r, task.result = some r ∧ r.length = texts.length ∧
        ∀ i : Nat, (r[i]?).map Outcome.text = texts[i]? := by
  intro task hfind hstatus
  have hcreated : find_task tid (analyze_sentiment_batch texts uid tid store).1
      = some ⟨tid, uid, "batch_sentiment_analysis", "pending", none, none⟩ :=
    find_task_append_fresh tid store _ hfresh rfl
  cases exc with
  | none =>
      rw [find_task_process_ok, hcreated, Option.map_some'] at hfind
      cases hfind.symm
      refine ⟨batch_results classify texts, rfl, ?_, ?_⟩
      · simp [batch_results]
      · intro i
        simp only [complete_task, batch_results, List.getElem?_map,
          Option.map_map]
        cases texts[i]? <;> rfl
  | some e =>
      rw [find_task_process_exc, hcreated, Option.map_some'] at hfind
      cases hfind.symm
      simp [fail_task] at hstatus

/-- Witness for C1: a two-item batch submitted to an empty store and
executed without storage failure. -/
theorem C1_result_matches_input_witness :
    ∃ r, (⟨"J", 1, "batch_sentiment_analysis", "completed",
        some [⟨"great!", "positive", 9/10⟩, ⟨"awful.", "negative", 4/5⟩],
        none⟩ : BackgroundTask).result = some r ∧
      r.length = (["great!", "awful."] : List String).length ∧
      ∀ i : Nat, (r[i]?).map Outcome.text
        = (["great!", "awful."] : List String)[i]? :=
  C1_result_matches_input
    (fun t => if t == "great!" then some (1, 9/10) else some (0, 4/5))
    ["great!", "awful."] 1 "J" [] none rfl
    ⟨"J", 1, "batch_sentiment_analysis", "completed",
      some [⟨"great!", "positive", 9/10⟩, ⟨"awful.", "negative", 4/5⟩],
      none⟩
    rfl rfl

/-- C5, counterexample: a submission with an empty `texts` list is not
rejected — there is no validation in `analyze_sentiment_batch` and no
`InvalidInput` signal in its interface.  Submitting `[]` writes a
pending job record to the empty store and answers `pending`. -/
theorem C5_counterexample :
    (analyze_sentiment_batch [] 1 "j1" []).1
        = [⟨"j1", 1, "batch_sentiment_analysis", "pending", none, none⟩] ∧
    (analyze_sentiment_batch [] 1 "j1" []).1 ≠ ([] : Store) ∧
    (analyze_sentiment_batch [] 1 "j1" []).2 = ⟨"j1", "pending"⟩ := by
  refine ⟨rfl, ?_, rfl⟩
  simp [analyze_sentiment_batch]

/-- C5, amended: submission performs no emptiness validation: an empty
items sequence creates a pending job record exactly like any other
submission (one storage write), returns `pending`, and the job then
completes with an empty result list. -/
theorem C5_empty_submit_creates_job (uid : Nat) (tid : String)
    (store : Store) (classify : String → Option (Int × ℚ))
    (hfresh : find_task tid store = none) :
    (analyze_sentiment_batch [] uid tid store).1
        = store ++
          [⟨tid, uid, "batch_sentiment_analysis", "pending", none, none⟩] ∧
    (analyze_sentiment_batch [] uid tid store).2 = ⟨tid, "pending"⟩ ∧
    find_task tid (process_batch_sentiment classify [] tid none
        (analyze_sentiment_batch [] uid tid store).1)
      = some ⟨tid, uid, "batch_sentiment_analysis", "completed",
          some [], none⟩ := by
  refine ⟨rfl, rfl, ?_⟩
  rw [find_task_process_ok]
  simp only [analyze_sentiment_batch]
  rw [find_task_append_fresh tid store _ hfresh rfl]
  rfl

/-- Witness for C5's amended statement on the empty store. -/
theorem C5_empty_submit_creates_job_witness :
    (analyze_sentiment_batch [] 7 "j9" []).1
        = [] ++
          [⟨"j9", 7, "batch_sentiment_analysis", "pending", none, none⟩] ∧
    (analyze_sentiment_batch [] 7 "j9" []).2 = ⟨"j9", "pending"⟩ ∧
    find_task "j9" (process_batch_sentiment (fun _ => none) [] "j9" none
        (analyze_sentiment_batch [] 7 "j9" []).1)
      = some ⟨"j9", 7, "batch_sentiment_analysis", "completed",
          some [], none⟩ :=
  C5_empty_submit_creates_job 7 "j9" [] (fun _ => none) rfl

/-- C6: a batch on which the classifier fails for some items and
succeeds for the others still reaches `completed` — never `failed` —
because `predict_sentiment` absorbs every classifier exception; each
failing item yields the default outcome `("neutral", 0.5)` and each
succeeding item keeps the classifier's real outcome. -/
theorem C6_partial_failure_completes (classify : String → Option (Int × ℚ))
    (texts : List String) (uid : Nat) (tid : String) (store : Store)
    (hfresh : find_task tid store = none)
    (hfail : ∃ t ∈ texts, classify t = none)
    (hsucc : ∃ t ∈ texts, classify t ≠ none) :
    ∃ task, find_task tid (process_batch_sentiment classify texts tid none
        (analyze_sentiment_batch texts uid tid store).1) = some task ∧
      task.status = "completed" ∧ task.status ≠ "failed" ∧
      task.result = some (batch_results classify texts) ∧
      ∀ i : Nat, ∀ t, texts[i]? = some t →
        (classify t = none →
          (batch_results classify texts)[i]? = some ⟨t, "neutral", 1/2⟩) ∧
        (∀ p c, classify t = some (p, c) →
          (batch_results classify texts)[i]?
            = some ⟨t, sentiment_map p, c⟩) := by
  have hcreated : find_task tid (analyze_sentiment_batch texts uid tid store).1
      = some ⟨tid, uid, "batch_sentiment_analysis", "pending", none, none⟩ :=
    find_task_append_fresh tid store _ hfresh rfl
  refine ⟨_, by rw [find_task_process_ok, hcreated, Option.map_some'],
    rfl, by simp [complete_task], rfl, ?_⟩
  intro i t ht
  constructor
  · intro hnone
    simp [batch_results, List.getElem?_map, ht, predict_sentiment, hnone]
  · intro p c hsome
    simp [batch_results, List.getElem?_map, ht, predict_sentiment, hsome]

/-- Witness for C6: a ten-item batch whose classifier fails on the item
`"bad"` and succeeds on the other nine. -/
theorem C6_partial_failure_completes_witness :
    ∃ task, find_task "J6" (process_batch_sentiment
        (fun t => if t == "bad" then none else some (1, 9/10))
        ["a", "b", "c", "d", "bad", "e", "f", "g", "h", "i"] "J6" none
        (analyze_sentiment_batch
          ["a", "b", "c", "d", "bad", "e", "f", "g", "h", "i"]
          3 "J6" []).1) = some task ∧
      task.status = "completed" ∧ task.status ≠ "failed" ∧
      task.result = some (batch_results
        (fun t => if t == "bad" then none else some (1, 9/10))
        ["a", "b", "c", "d", "bad", "e", "f", "g", "h", "i"]) ∧
      ∀ i : Nat, ∀ t,
        (["a", "b", "c", "d", "bad", "e", "f", "g", "h", "i"] :
            List String)[i]? = some t →
        ((fun u => if u == "bad" then none
            else some ((1 : Int), (9 : ℚ)/10)) t = none →
          (batch_results
            (fun u => if u == "bad" then none else some (1, 9/10))
            ["a", "b", "c", "d", "bad", "e", "f", "g", "h", "i"])[i]?
            = some ⟨t, "neutral", 1/2⟩) ∧
        (∀ p c, (fun u => if u == "bad" then none
            else some ((1 : Int), (9 : ℚ)/10)) t = some (p, c) →
          (batch_results
            (fun u => if u == "bad" then none else some (1, 9/10))
            ["a", "b", "c", "d", "bad", "e", "f", "g", "h", "i"])[i]?
            = some ⟨t, sentiment_map p, c⟩) :=
  C6_partial_failure_completes
    (fun t => if t == "bad" then none else some (1, 9/10))
    ["a", "b", "c", "d", "bad", "e", "f", "g", "h", "i"] 3 "J6" [] rfl
    ⟨"bad", by simp, rfl⟩ ⟨"a", by simp, by simp⟩

/-- The record invariant of claim C8: `result` is populated exactly in
state `completed`, `error_message` exactly in state `failed`, and never
both (so both are absent in the non-terminal `pending` state). -/
def record_invariant (t : BackgroundTask) : Prop :=
  ((∃ r, t.result = some r) ↔ t.status = "completed") ∧
  ((∃ e, t.error_message = some e) ↔ t.status = "failed") ∧
  ¬(t.result ≠ none ∧ t.error_message ≠ none)

/-- C8: over a job's whole lifetime — the freshly created record, and
the record after its single executor run, on either the success or the
exception path — at most one of `{result, error_message}` is populated,
and it is populated exactly when the state is terminal: `result` iff
`completed`, `error_message` iff `failed`; both are absent while
`pending`. -/
theorem C8_record_invariant (classify : String → Option (Int × ℚ))
    (texts : List String) (uid : Nat) (tid : String) (store : Store)
    (exc : Option String) (hfresh : find_task tid store = none) :
    (∀ task, find_task tid (analyze_sentiment_batch texts uid tid store).1
        = some task → record_invariant task) ∧
    (∀ task, find_task tid (process_batch_sentiment classify texts tid exc
        (analyze_sentiment_batch texts uid tid store).1) = some task →
      record_invariant task) := by
  have hcreated : find_task tid (analyze_sentiment_batch texts uid tid store).1
      = some ⟨tid, uid, "batch_sentiment_analysis", "pending", none, none⟩ :=
    find_task_append_fresh tid store _ hfresh rfl
  constructor
  · intro task hfind
    rw [hcreated] at hfind
    cases Option.some.inj hfind
    simp [record_invariant]
  · intro task hfind
    cases exc with
    | none =>
        rw [find_task_process_ok, hcreated, Option.map_some'] at hfind
        cases Option.some.inj hfind
        simp [record_invariant, complete_task]
    | some e =>
        rw [find_task_process_exc, hcreated, Option.map_some'] at hfind
        cases Option.some.inj hfind
        simp [record_invariant, fail_task]

/-- Witness for C8 on a concrete one-item submission followed by a
failing executor run. -/
theorem C8_record_invariant_witness :
    (∀ task, find_task "J8" (analyze_sentiment_batch ["x"] 2 "J8" []).1
        = some task → record_invariant task) ∧
    (∀ task, find_task "J8" (process_batch_sentiment (fun _ => none)
        ["x"] "J8" (some "db down")
        (analyze_sentiment_batch ["x"] 2 "J8" []).1) = some task →
      record_invariant task) :=
  C8_record_invariant (fun _ => none) ["x"] 2 "J8" [] (some "db down") rfl

/-- C2, counterexample: the executor performs no state check before
writing.  Run on a store whose only `j1` row is already `completed`,
the exception path rewrites that row to `failed` with an error message:
the record changes, and no `InvalidTransition` signal exists anywhere
in the executor's interface (its only effect is the returned store). -/
theorem C2_counterexample :
    process_batch_sentiment (fun _ => none) ["good"] "j1" (some "db error")
        [⟨"j1", 1, "batch_sentiment_analysis", "completed",
          some [⟨"good", "positive", 9/10⟩], none⟩]
      = [⟨"j1", 1, "batch_sentiment_analysis", "failed",
          some [⟨"good", "positive", 9/10⟩], some "db error"⟩] ∧
    process_batch_sentiment (fun _ => none) ["good"] "j1" (some "db error")
        [⟨"j1", 1, "batch_sentiment_analysis", "completed",
          some [⟨"good", "positive", 9/10⟩], none⟩]
      ≠ [⟨"j1", 1, "batch_sentiment_analysis", "completed",
          some [⟨"good", "positive", 9/10⟩], none⟩] := by
  refine ⟨rfl, ?_⟩
  simp [process_batch_sentiment, update_first, fail_task]

/-- C2, amended: terminal states are not absorbing.  The executor never
inspects the current state: whatever the matched row's state — in
particular `completed` or `failed` — a further run overwrites it, to
`completed` with fresh results on the success path and to `failed` with
an error message on the exception path, and no `InvalidTransition`
signal is raised (the run's only observable effect is the new store). -/
theorem C2_terminal_not_absorbing (classify : String → Option (Int × ℚ))
    (texts : List String) (tid : String) (e : String) (store : Store)
    (t : BackgroundTask) (hfound : find_task tid store = some t) :
    find_task tid (process_batch_sentiment classify texts tid none store)
      = some (complete_task (batch_results classify texts) t) ∧
    find_task tid (process_batch_sentiment classify texts tid (some e) store)
      = some (fail_task e t) ∧
    (t.status = "completed" → fail_task e t ≠ t) ∧
    (t.status = "failed" → t.result = none →
      complete_task (batch_results classify texts) t ≠ t) := by
  refine ⟨?_, ?_, ?_, ?_⟩
  · rw [find_task_process_ok, hfound, Option.map_some']
  · rw [find_task_process_exc, hfound, Option.map_some']
  · intro hc heq
    have : (fail_task e t).status = t.status := by rw [heq]
    simp [fail_task, hc] at this
  · intro hf hr heq
    have : (complete_task (batch_results classify texts) t).status
        = t.status := by rw [heq]
    simp [complete_task, hf] at this

/-- Witness for C2's amended statement on a store holding one already
completed row. -/
theorem C2_terminal_not_absorbing_witness :
    find_task "j1" (process_batch_sentiment (fun _ => none) ["good"] "j1"
        none
        [⟨"j1", 1, "batch_sentiment_analysis", "completed",
          some [⟨"good", "positive", 9/10⟩], none⟩])
      = some (complete_task
          (batch_results (fun _ => none) ["good"])
          ⟨"j1", 1, "batch_sentiment_analysis", "completed",
            some [⟨"good", "positive", 9/10⟩], none⟩) ∧
    find_task "j1" (process_batch_sentiment (fun _ => none) ["good"] "j1"
        (some "db error")
        [⟨"j1", 1, "batch_sentiment_analysis", "completed",
          some [⟨"good", "positive", 9/10⟩], none⟩])
      = some (fail_task "db error"
          ⟨"j1", 1, "batch_sentiment_analysis", "completed",
            some [⟨"good", "positive", 9/10⟩], none⟩) ∧
    ((⟨"j1", 1, "batch_sentiment_analysis", "completed",
        some [⟨"good", "positive", 9/10⟩], none⟩ :
        BackgroundTask).status = "completed" →
      fail_task "db error"
          ⟨"j1", 1, "batch_sentiment_analysis", "completed",
            some [⟨"good", "positive", 9/10⟩], none⟩
        ≠ ⟨"j1", 1, "batch_sentiment_analysis", "completed",
            some [⟨"good", "positive", 9/10⟩], none⟩) ∧
    ((⟨"j1", 1, "batch_sentiment_analysis", "completed",
        some [⟨"good", "positive", 9/10⟩], none⟩ :
        BackgroundTask).status = "failed" →
      (⟨"j1", 1, "batch_sentiment_analysis", "completed",
        some [⟨"good", "positive", 9/10⟩], none⟩ :
        BackgroundTask).result = none →
      complete_task (batch_results (fun _ => none) ["good"])
          ⟨"j1", 1, "batch_sentiment_analysis", "completed",
            some [⟨"good", "positive", 9/10⟩], none⟩
        ≠ ⟨"j1", 1, "batch_sentiment_analysis", "completed",
            some [⟨"good", "positive", 9/10⟩], none⟩) :=
  C2_terminal_not_absorbing (fun _ => none) ["good"] "j1" "db error"
    [⟨"j1", 1, "batch_sentiment_analysis", "completed",
      some [⟨"good", "positive", 9/10⟩], none⟩]
    ⟨"j1", 1, "batch_sentiment_analysis", "completed",
      some [⟨"good", "positive", 9/10⟩], none⟩ rfl

/-- C3, counterexample: dispatch two executor runs for the same pending
job `j1` (the serialized schedule of a duplicate dispatch).  No run ever
moves the job to a `processing` state — the first run writes
`completed` directly — and the second run is not stopped by any
`InvalidTransition`: it mutates the job again, rewriting it to
`failed`. -/
theorem C3_counterexample :
    (∀ t, t ∈ process_batch_sentiment (fun _ => some (1, 9/10)) ["x"]
        "j1" none
        [⟨"j1", 1, "batch_sentiment_analysis", "pending", none, none⟩] →
      t.status ≠ "processing") ∧
    process_batch_sentiment (fun _ => some (1, 9/10)) ["x"] "j1"
        (some "late duplicate")
        (process_batch_sentiment (fun _ => some (1, 9/10)) ["x"] "j1" none
          [⟨"j1", 1, "batch_sentiment_analysis", "pending", none, none⟩])
      ≠ process_batch_sentiment (fun _ => some (1, 9/10)) ["x"] "j1" none
          [⟨"j1", 1, "batch_sentiment_analysis", "pending", none, none⟩] := by
  constructor
  · intro t ht
    have : t = ⟨"j1", 1, "batch_sentiment_analysis", "completed",
        some [⟨"x", "positive", 9/10⟩], none⟩ := by
      simpa [process_batch_sentiment, update_first] using ht
    rw [this]
    simp
  · show process_batch_sentiment _ _ _ _
        [⟨"j1", 1, "batch_sentiment_analysis", "completed",
          some [⟨"x", "positive", 9/10⟩], none⟩]
      ≠ [⟨"j1", 1, "batch_sentiment_analysis", "completed",
          some [⟨"x", "positive", 9/10⟩], none⟩]
    simp [process_batch_sentiment, update_first, fail_task]

/-- C3, amended: the executor has no claim step, so duplicate dispatch
is not fenced: in the serialized schedule of two executor runs for the
same job both runs mutate the job's record — the first rewrites the
pending row to a terminal state, and the second rewrites it again
(last write wins) instead of observing `InvalidTransition` and
abandoning; neither run ever produces a `processing` state. -/
theorem C3_duplicate_dispatch_both_mutate
    (classify₁ classify₂ : String → Option (Int × ℚ))
    (texts₁ texts₂ : List String) (tid : String) (e : String)
    (store : Store) (t : BackgroundTask)
    (hfound : find_task tid store = some t) :
    ∃ t₁, find_task tid
        (process_batch_sentiment classify₁ texts₁ tid none store)
        = some t₁ ∧
      t₁.status = "completed" ∧ t₁.status ≠ "processing" ∧
      ∃ t₂, find_task tid (process_batch_sentiment classify₂ texts₂ tid
          (some e)
          (process_batch_sentiment classify₁ texts₁ tid none store))
          = some t₂ ∧
        t₂.status = "failed" ∧ t₂.status ≠ "processing" ∧ t₂ ≠ t₁ := by
  refine ⟨complete_task (batch_results classify₁ texts₁) t,
    by rw [find_task_process_ok, hfound, Option.map_some'], rfl,
    by simp [complete_task], ?_⟩
  refine ⟨fail_task e (complete_task (batch_results classify₁ texts₁) t),
    ?_, rfl, by simp [fail_task], ?_⟩
  · rw [find_task_process_exc, find_task_process_ok, hfound,
      Option.map_some', Option.map_some']
  · intro heq
    have : (fail_task e
        (complete_task (batch_results classify₁ texts₁) t)).status
        = (complete_task (batch_results classify₁ texts₁) t).status := by
      rw [heq]
    simp [fail_task, complete_task] at this

/-- Witness for C3's amended statement: duplicate dispatch for one
pending job in a singleton store. -/
theorem C3_duplicate_dispatch_both_mutate_witness :
    ∃ t₁, find_task "j1"
        (process_batch_sentiment (fun _ => some (1, 9/10)) ["x"] "j1" none
          [⟨"j1", 1, "batch_sentiment_analysis", "pending", none, none⟩])
        = some t₁ ∧
      t₁.status = "completed" ∧ t₁.status ≠ "processing" ∧
      ∃ t₂, find_task "j1" (process_batch_sentiment
          (fun _ => some (1, 9/10)) ["x"] "j1" (some "late duplicate")
          (process_batch_sentiment (fun _ => some (1, 9/10)) ["x"] "j1"
            none
            [⟨"j1", 1, "batch_sentiment_analysis", "pending", none,
              none⟩]))
          = some t₂ ∧
        t₂.status = "failed" ∧ t₂.status ≠ "processing" ∧ t₂ ≠ t₁ :=
  C3_duplicate_dispatch_both_mutate (fun _ => some (1, 9/10))
    (fun _ => some (1, 9/10)) ["x"] ["x"] "j1" "late duplicate"
    [⟨"j1", 1, "batch_sentiment_analysis", "pending", none, none⟩]
    ⟨"j1", 1, "batch_sentiment_analysis", "pending", none, none⟩ rfl

/-- One scheduled executor invocation for a fixed job id: the classifier
in effect during the run, the text list it was dispatched with, and
whether a storage exception interrupts the run. -/
structure Dispatch where
  classify : String → Option (Int × ℚ)
  texts : List String
  exc : Option String

/-- Run one dispatched executor invocation against the store. -/
def run_dispatch (tid : String) (d : Dispatch) (store : Store) : Store :=
  process_batch_sentiment d.classify d.texts tid d.exc store

/-- Run a sequence of dispatched executor invocations in order. -/
def run_dispatches (tid : String) (ds : List Dispatch) (store : Store) :
    Store :=
  List.foldl (fun s d => run_dispatch tid d s) store ds

/-- Any single run rewrites the matched row to a terminal status. -/
lemma run_dispatch_found (tid : String) (d : Dispatch) (store : Store)
    (t : BackgroundTask) (hfound : find_task tid store = some t) :
    ∃ t', find_task tid (run_dispatch tid d store) = some t' ∧
      (t'.status = "completed" ∨ t'.status = "failed") := by
  cases hexc : d.exc with
  | none =>
      refine ⟨complete_task (batch_results d.classify d.texts) t, ?_,
        Or.inl rfl⟩
      rw [run_dispatch, hexc, find_task_process_ok, hfound,
        Option.map_some']
  | some e =>
      refine ⟨fail_task e t, ?_, Or.inr rfl⟩
      rw [run_dispatch, hexc, find_task_process_exc, hfound,
        Option.map_some']

/-- After any sequence of runs the row is still found, is unchanged for
the empty sequence, and has a terminal status once at least one run has
happened. -/
lemma run_dispatches_found (tid : String) (ds : List Dispatch) :
    ∀ store t, find_task tid store = some t →
      ∃ t', find_task tid (run_dispatches tid ds store) = some t' ∧
        (ds = [] → t' = t) ∧
        (ds ≠ [] → (t'.status = "completed" ∨ t'.status = "failed")) := by
  induction ds with
  | nil =>
      intro store t hfound
      exact ⟨t, hfound, fun _ => rfl, fun h => absurd rfl h⟩
  | cons d ds ih =>
      intro store t hfound
      obtain ⟨t₁, hfind₁, hterm₁⟩ := run_dispatch_found tid d store t hfound
      obtain ⟨t', hfind', hnil, hne⟩ :=
        ih (run_dispatch tid d store) t₁ hfind₁
      refine ⟨t', hfind', fun h => absurd h (by simp), fun _ => ?_⟩
      cases hds : ds with
      | nil => rw [hnil hds] ; exact hterm₁
      | cons d₂ ds₂ => exact hne (by simp [hds])

/-- C4, counterexample: a single atomic executor run takes the job's
row straight from `pending` to `completed`.  No `processing` state ever
appears: the store after the run holds exactly one row, and its status
is `completed`, so the job moved directly from Pending to a terminal
state. -/
theorem C4_counterexample :
    (⟨"j1", 1, "batch_sentiment_analysis", "pending", none, none⟩ :
        BackgroundTask).status = "pending" ∧
    process_batch_sentiment (fun _ => some (1, 9/10)) ["x"] "j1" none
        [⟨"j1", 1, "batch_sentiment_analysis", "pending", none, none⟩]
      = [⟨"j1", 1, "batch_sentiment_analysis", "completed",
          some [⟨"x", "positive", 9/10⟩], none⟩] ∧
    (⟨"j1", 1, "batch_sentiment_analysis", "completed",
        some [⟨"x", "positive", 9/10⟩], none⟩ :
        BackgroundTask).status ≠ "processing" :=
  ⟨rfl, rfl, by simp⟩

/-- C4, amended: the executed job's state sequence always skips
Processing — the executor writes a terminal state (`completed` or
`failed`) directly onto the `pending` row in one step, and `processing`
never occurs.  The second half of the claim stands: once the job has
left `pending`, no later executor run ever returns it to `pending`
(every run writes only terminal states). -/
theorem C4_no_processing_state (tid : String) (ds : List Dispatch)
    (store : Store) (t : BackgroundTask)
    (hfound : find_task tid store = some t) (hne : ds ≠ []) :
    ∃ t', find_task tid (run_dispatches tid ds store) = some t' ∧
      (t'.status = "completed" ∨ t'.status = "failed") ∧
      t'.status ≠ "processing" ∧ t'.status ≠ "pending" := by
  obtain ⟨t', hfind', _, hterm⟩ := run_dispatches_found tid ds store t hfound
  have ht' := hterm hne
  refine ⟨t', hfind', ht', ?_, ?_⟩ <;>
    rcases ht' with h | h <;> simp [h]

/-- Witness for C4's amended statement: one dispatch on a singleton
pending store. -/
theorem C4_no_processing_state_witness :
    ∃ t', find_task "j1" (run_dispatches "j1"
        [⟨fun _ => some (1, 9/10), ["x"], none⟩]
        [⟨"j1", 1, "batch_sentiment_analysis", "pending", none, none⟩])
        = some t' ∧
      (t'.status = "completed" ∨ t'.status = "failed") ∧
      t'.status ≠ "processing" ∧ t'.status ≠ "pending" :=
  C4_no_processing_state "j1" [⟨fun _ => some (1, 9/10), ["x"], none⟩]
    [⟨"j1", 1, "batch_sentiment_analysis", "pending", none, none⟩]
    ⟨"j1", 1, "batch_sentiment_analysis", "pending", none, none⟩
    rfl (by simp)
